import Mathlib

/-!
Shallow embedding of the SoftDesk support API (Django/DRF application).

The embedding translates the access-control, resource-resolution and
membership-mutation logic of the source files

  softdesk/projects/models.py, permissions.py, serializers.py, views.py
  softdesk/issues/models.py, permissions.py, serializers.py, views.py
  softdesk/users/models.py, serializers.py, views.py

into executable Lean definitions.  Database tables become lists of records,
Django querysets become list filters, and each REST endpoint becomes a
function from a database state (plus the acting user and the URL parameters)
to a result and a possibly updated database state.

Conventions:
* `isAuthenticated` on a `User` models `request.user.is_authenticated` of the
  inbound request.
* A DRF permission class whose `has_permission` returns `False` makes the
  framework answer 401 for an unauthenticated actor and 403 for an
  authenticated one; `permissionDenied` encodes exactly that.
* Ordering clauses (`order_by`) and timestamp fields are not modelled; no
  claim refers to them.
-/

/-- A user record (softdesk/users/models.py, class `User`).  The fields
`isStaff` / `isSuperuser` model Django's `is_staff` / `is_superuser` flags,
`age` the nullable `age` column. -/
structure User where
  id : Nat
  username : String
  isAuthenticated : Bool
  isStaff : Bool
  isSuperuser : Bool
  age : Option Int
deriving DecidableEq, Repr

/-- A project record (softdesk/projects/models.py, class `Project`). -/
structure Project where
  id : Nat
  title : String
  authorId : Nat
deriving DecidableEq, Repr

/-- A membership row (softdesk/projects/models.py, class `Contributor`):
one row per (user, project) pair, with its own primary key `id`. -/
structure Contributor where
  id : Nat
  userId : Nat
  projectId : Nat
deriving DecidableEq, Repr

/-- An issue record (softdesk/issues/models.py, class `Issue`).  The enum
columns tag/priority/status are not modelled; no claim refers to them. -/
structure Issue where
  id : Nat
  title : String
  projectId : Nat
  authorId : Nat
  assigneeId : Option Nat
deriving DecidableEq, Repr

/-- A comment record (softdesk/issues/models.py, class `Comment`). -/
structure Comment where
  id : Nat
  description : String
  issueId : Nat
  authorId : Nat
deriving DecidableEq, Repr

/-- The persistence layer: one list per table, plus primary-key counters
for the rows the modelled endpoints create. -/
structure DB where
  users : List User
  projects : List Project
  contributors : List Contributor
  issues : List Issue
  comments : List Comment
  nextUserId : Nat
  nextProjectId : Nat
  nextContributorId : Nat
  nextIssueId : Nat
deriving DecidableEq, Repr

/-- `Project.objects.get(pk=...)` as a point lookup. -/
def findProject (db : DB) (pid : Nat) : Option Project :=
  db.projects.find? (fun pr => pr.id == pid)

/-- `User.objects.get(username=...)` as a point lookup. -/
def findUserByUsername (db : DB) (uname : String) : Option User :=
  db.users.find? (fun u => u.username == uname)

/-- `Issue.objects.get(pk=...)` as a point lookup. -/
def findIssue (db : DB) (iid : Nat) : Option Issue :=
  db.issues.find? (fun i => i.id == iid)

/-- `project.contributors.filter(id=user_id).exists()`: membership test on
the through table. -/
def isContributor (db : DB) (uid pid : Nat) : Bool :=
  db.contributors.any (fun c => c.userId == uid && c.projectId == pid)

/-- Outcome of an endpoint call, tagged the way DRF surfaces it:
401 / 403 / 404-at-a-level / 400-with-a-field / 2xx-with-a-payload. -/
inductive ApiResult (α : Type) where
  | unauthenticated
  | forbidden
  | notFound (level : String)
  | validationError (field msg : String)
  | ok (val : α)
deriving DecidableEq, Repr

/-- DRF's reaction to a permission class returning `False`:
401 when the actor is anonymous, 403 otherwise. -/
def permissionDenied {α : Type} (actor : User) : ApiResult α :=
  if actor.isAuthenticated then .forbidden else .unauthenticated

/-- Outcome of the membership (contributor) endpoints, one constructor per
distinct response of softdesk/projects/views.py, so that each carries its
HTTP status via `MembershipResult.status`. -/
inductive MembershipResult where
  | unauthenticated
  | projectNotFound
  | forbidden
  | usernameInvalid
  | usernameRequired
  | userNotFound
  | alreadyContributor
  | authorCannotBeRemoved
  | contributorNotFound
  | invited
  | removed
deriving DecidableEq, Repr

/-- The HTTP status code each membership response is returned with in
softdesk/projects/views.py. -/
def MembershipResult.status : MembershipResult → Nat
  | .unauthenticated => 401
  | .projectNotFound => 404
  | .forbidden => 403
  | .usernameInvalid => 400
  | .usernameRequired => 400
  | .userNotFound => 404
  | .alreadyContributor => 400
  | .authorCannotBeRemoved => 400
  | .contributorNotFound => 404
  | .invited => 201
  | .removed => 204

namespace UserSerializer

/-- softdesk/users/serializers.py, `UserSerializer.validate_age`:
rejects a null age and an age below 15. -/
def validate_age (value : Option Int) : Except String Int :=
  match value with
  | none => .error "Age is required."
  | some v =>
    if v < 15 then .error "You must be at least 15 years old to register."
    else .ok v

end UserSerializer

/-- The three shapes the `age` field of a signup request can take. -/
inductive AgeInput where
  | omitted
  | null
  | value (n : Int)
deriving DecidableEq, Repr

/-- DRF field handling for the model-derived serializer field
`age = IntegerField(required=False, allow_null=True)` (the model column is
`IntegerField(null=True, blank=True)`): an omitted field is skipped
(`validate_age` is never called and the stored column defaults to null);
an explicit null passes the empty-value check and is then handed to
`validate_age`; a supplied integer is handed to `validate_age`. -/
def runAgeField (a : AgeInput) : Except (String × String) (Option Int) :=
  match a with
  | .omitted => .ok none
  | .null =>
    match UserSerializer.validate_age none with
    | .error m => .error ("age", m)
    | .ok v => .ok (some v)
  | .value n =>
    match UserSerializer.validate_age (some n) with
    | .error m => .error ("age", m)
    | .ok v => .ok (some v)

namespace UserCreateAPIView

/-- softdesk/users/views.py, `UserCreateAPIView` (permission `AllowAny`)
composed with `UserSerializer.create`: validate the age field, then store
the new user.  The extra age test inside `perform_create` is dead code
(serializer validation has already rejected every age below 15), so it
cannot alter the outcome.  The username-uniqueness constraint is not
modelled; no claim refers to it. -/
def create (db : DB) (uname : String) (a : AgeInput) : ApiResult User × DB :=
  match runAgeField a with
  | .error (f, m) => (.validationError f m, db)
  | .ok ageVal =>
    let u : User :=
      { id := db.nextUserId, username := uname, isAuthenticated := false,
        isStaff := false, isSuperuser := false, age := ageVal }
    (.ok u, { db with users := db.users ++ [u], nextUserId := db.nextUserId + 1 })

end UserCreateAPIView

/-- softdesk/projects/views.py, `ProjectViewSet.get_queryset`:
superusers/staff see every project; the `retrieve` action also uses the
unrestricted queryset (so that a non-member gets 403 rather than 404);
every other action sees only projects authored or contributed to. -/
def projectQueryset (db : DB) (actor : User) (action : String) : List Project :=
  if actor.isSuperuser || actor.isStaff then db.projects
  else if action == "retrieve" then db.projects
  else db.projects.filter (fun pr => pr.authorId == actor.id || isContributor db actor.id pr.id)

namespace ProjectViewSet

/-- The list endpoint: `IsAuthenticated` plus the list queryset.
`IsAuthorOrContributor.has_permission` returns true for every
authenticated actor, and no object-level check runs on a list. -/
def list (db : DB) (actor : User) : ApiResult (List Project) :=
  if actor.isAuthenticated then .ok (projectQueryset db actor "list")
  else .unauthenticated

/-- The retrieve endpoint: `get_object` over the retrieve queryset, then
`IsAuthorOrContributor.has_object_permission` which, for a safe method,
allows exactly the project's contributors (softdesk/projects/permissions.py
lines 54-56; there is no staff or author special case at this tier). -/
def retrieve (db : DB) (actor : User) (pk : Nat) : ApiResult Project :=
  if ¬ actor.isAuthenticated then .unauthenticated
  else
    match (projectQueryset db actor "retrieve").find? (fun pr => pr.id == pk) with
    | none => .notFound "project"
    | some proj =>
      if isContributor db actor.id proj.id then .ok proj else .forbidden

/-- softdesk/projects/views.py, `ProjectViewSet.perform_create`: store the
new project with the actor as author and immediately add the author as a
contributor row. -/
def perform_create (db : DB) (actor : User) (title : String) : ApiResult Project × DB :=
  if ¬ actor.isAuthenticated then (.unauthenticated, db)
  else
    let proj : Project := { id := db.nextProjectId, title := title, authorId := actor.id }
    let row : Contributor :=
      { id := db.nextContributorId, userId := actor.id, projectId := proj.id }
    (.ok proj,
      { db with
          projects := db.projects ++ [proj],
          contributors := db.contributors ++ [row],
          nextProjectId := db.nextProjectId + 1,
          nextContributorId := db.nextContributorId + 1 })

/-- `self.get_object()` inside the `contributors` action: lookup in the
action's queryset (`self.action` is "contributors", so non-staff actors see
only authored/contributed projects); a failed lookup raises Http404. -/
def contributorsGetObject (db : DB) (actor : User) (p : Nat) : Option Project :=
  (projectQueryset db actor "contributors").find? (fun pr => pr.id == p)

/-- The POST branch of the `contributors` action (invite by username).
`self.get_object()` runs `IsAuthorOrContributor.has_object_permission`
with method POST, which matches neither the safe-method branch nor the
PUT/PATCH/DELETE branch and therefore returns `False`
(softdesk/projects/permissions.py line 62): every POST that resolves the
project is rejected with 403 before the invite logic runs. -/
def contributorsPost (db : DB) (actor : User) (p : Nat) (_uname : String) :
    MembershipResult × DB :=
  if ¬ actor.isAuthenticated then (.unauthenticated, db)
  else
    match contributorsGetObject db actor p with
    | none => (.projectNotFound, db)
    | some _ => (.forbidden, db)

/-- The DELETE branch of the `contributors` action (revoke by username).
`self.get_object()` runs the object permission with method DELETE, which
allows only the project author; then the handler requires a username,
resolves it, refuses to remove the author, and otherwise deletes the
membership row (by its primary key). -/
def contributorsDelete (db : DB) (actor : User) (p : Nat) (uname? : Option String) :
    MembershipResult × DB :=
  if ¬ actor.isAuthenticated then (.unauthenticated, db)
  else
    match contributorsGetObject db actor p with
    | none => (.projectNotFound, db)
    | some proj =>
      if proj.authorId != actor.id then (.forbidden, db)
      else
        match uname? with
        | none => (.usernameRequired, db)
        | some uname =>
          match findUserByUsername db uname with
          | none => (.userNotFound, db)
          | some u =>
            if u.id == proj.authorId then (.authorCannotBeRemoved, db)
            else
              match db.contributors.find?
                  (fun c => c.projectId == proj.id && c.userId == u.id) with
              | some row =>
                (.removed,
                  { db with contributors := db.contributors.filter (fun c => c.id != row.id) })
              | none => (.contributorNotFound, db)

end ProjectViewSet

namespace ContributorViewSet

/-- softdesk/projects/views.py, `ContributorViewSet.create` (permission
`IsAuthenticated` only): resolve the project, require the actor to be its
author, validate the username through `ProjectContributorAddSerializer`
(whose `validate_username` rejects an unknown user with a 400 before the
view's own 404 branch can run), reject a duplicate membership with a 400,
otherwise insert the membership row. -/
def create (db : DB) (actor : User) (p : Nat) (uname : String) :
    MembershipResult × DB :=
  if ¬ actor.isAuthenticated then (.unauthenticated, db)
  else
    match findProject db p with
    | none => (.projectNotFound, db)
    | some proj =>
      if actor.id != proj.authorId then (.forbidden, db)
      else
        match findUserByUsername db uname with
        | none => (.usernameInvalid, db)
        | some u =>
          if isContributor db u.id proj.id then (.alreadyContributor, db)
          else
            (.invited,
              { db with
                  contributors := db.contributors ++
                    [{ id := db.nextContributorId, userId := u.id, projectId := proj.id }],
                  nextContributorId := db.nextContributorId + 1 })

/-- softdesk/projects/views.py, `ContributorViewSet.destroy`: resolve the
project, require the actor to be its author, resolve the membership row by
its primary key inside the project's queryset, refuse to remove the row of
the project author, otherwise delete the row. -/
def destroy (db : DB) (actor : User) (p : Nat) (rowPk : Nat) :
    MembershipResult × DB :=
  if ¬ actor.isAuthenticated then (.unauthenticated, db)
  else
    match findProject db p with
    | none => (.projectNotFound, db)
    | some proj =>
      if actor.id != proj.authorId then (.forbidden, db)
      else
        match (db.contributors.filter (fun c => c.projectId == p)).find?
            (fun c => c.id == rowPk) with
        | none => (.contributorNotFound, db)
        | some row =>
          if row.userId == proj.authorId then (.authorCannotBeRemoved, db)
          else
            (.removed,
              { db with contributors := db.contributors.filter (fun c => c.id != row.id) })

end ContributorViewSet

namespace IsProjectContributor

/-- softdesk/issues/permissions.py, `IsProjectContributor.has_permission`:
the actor must be authenticated, the project id from the URL must resolve,
and the actor must be one of that project's contributors.  A `False`
answer surfaces as 401/403, never as a 404 (even when the project id does
not resolve). -/
def has_permission (db : DB) (actor : User) (p : Nat) : Bool :=
  actor.isAuthenticated && (findProject db p).isSome && isContributor db actor.id p

/-- softdesk/issues/permissions.py,
`IsProjectContributor.has_object_permission` on an `Issue`: the actor must
be authenticated and a contributor of the issue's own project. -/
def has_object_permission_issue (db : DB) (actor : User) (i : Issue) : Bool :=
  actor.isAuthenticated && isContributor db actor.id i.projectId

/-- softdesk/issues/permissions.py,
`IsProjectContributor.has_object_permission` on a `Comment`: the actor must
be authenticated and a contributor of the project of the comment's issue
(`obj.issue.project`; the foreign key always resolves in the real store, a
dangling one is treated as a denial). -/
def has_object_permission_comment (db : DB) (actor : User) (c : Comment) : Bool :=
  actor.isAuthenticated &&
    (match findIssue db c.issueId with
     | some i => isContributor db actor.id i.projectId
     | none => false)

end IsProjectContributor

namespace IsAuthor

/-- softdesk/issues/permissions.py, `IsAuthor.has_object_permission`:
safe methods pass; a write requires the actor to be the record's author. -/
def has_object_permission (actor : User) (authorId : Nat) (safeMethod : Bool) : Bool :=
  safeMethod || authorId == actor.id

end IsAuthor

namespace IssueSerializer

/-- softdesk/issues/serializers.py,
`IssueSerializer.validate_assignee_username`: resolve the username, resolve
the project named by the URL parameter, and require the assignee to be one
of that project's contributors; any failure is a validation error on the
`assignee_username` field. -/
def validate_assignee_username (db : DB) (p : Nat) (uname : String) : Except String Nat :=
  match findUserByUsername db uname with
  | none => .error "Assignee user does not exist."
  | some u =>
    match findProject db p with
    | none => .error "Project does not exist. Cannot validate assignee contributor status."
    | some proj =>
      if isContributor db u.id proj.id then .ok u.id
      else .error "Assigned user must be a contributor to this project."

end IssueSerializer

/-- Request body for creating an issue (the writable serializer fields a
claim refers to: `title` plus the optional `assignee_username`). -/
structure IssueCreateInput where
  title : String
  assignee_username : Option String
deriving DecidableEq, Repr

/-- Request body for updating an issue; a `none` field was not supplied. -/
structure IssueUpdateInput where
  title : Option String
  assignee_username : Option String
deriving DecidableEq, Repr

namespace IssueViewSet

/-- softdesk/issues/views.py, `IssueViewSet.get_queryset` on the nested
route: issues filtered by the project id taken from the URL. -/
def get_queryset (db : DB) (p : Nat) : List Issue :=
  db.issues.filter (fun i => i.projectId == p)

/-- `self.get_object()`: primary-key lookup inside the filtered queryset;
an issue of another project is not in the queryset, so the lookup raises
Http404 even when the issue id exists globally. -/
def get_object (db : DB) (p i : Nat) : Option Issue :=
  (get_queryset db p).find? (fun x => x.id == i)

/-- The list endpoint: collection permission, then the filtered queryset. -/
def list (db : DB) (actor : User) (p : Nat) : ApiResult (List Issue) :=
  if IsProjectContributor.has_permission db actor p then .ok (get_queryset db p)
  else permissionDenied actor

/-- The retrieve endpoint: collection permission, object lookup, then the
object-level checks (`IsProjectContributor` on the issue's project;
`IsAuthor` passes because GET is a safe method). -/
def retrieve (db : DB) (actor : User) (p i : Nat) : ApiResult Issue :=
  if ¬ IsProjectContributor.has_permission db actor p then permissionDenied actor
  else
    match get_object db p i with
    | none => .notFound "issue"
    | some issue =>
      if IsProjectContributor.has_object_permission_issue db actor issue &&
          IsAuthor.has_object_permission actor issue.authorId true then .ok issue
      else .forbidden

/-- The create endpoint: collection permission, serializer validation of
`assignee_username` when supplied, then `perform_create` (which re-resolves
the project and re-checks contributorship — the "double check" of
softdesk/issues/views.py — before storing the issue with the actor as
author). -/
def create (db : DB) (actor : User) (p : Nat) (inp : IssueCreateInput) :
    ApiResult Issue × DB :=
  if ¬ IsProjectContributor.has_permission db actor p then (permissionDenied actor, db)
  else
    let stored : Option Nat → ApiResult Issue × DB := fun assignee =>
      match findProject db p with
      | none => (.notFound "project", db)
      | some proj =>
        if ¬ isContributor db actor.id proj.id then (.forbidden, db)
        else
          let issue : Issue :=
            { id := db.nextIssueId, title := inp.title, projectId := proj.id,
              authorId := actor.id, assigneeId := assignee }
          (.ok issue, { db with issues := db.issues ++ [issue],
                                nextIssueId := db.nextIssueId + 1 })
    match inp.assignee_username with
    | some uname =>
      match IssueSerializer.validate_assignee_username db p uname with
      | .error m => (.validationError "assignee_username" m, db)
      | .ok uid => stored (some uid)
    | none => stored none

/-- softdesk/issues/serializers.py, `IssueSerializer.update` restricted to
the modelled fields: set the assignee when a validated one was supplied
(leave it unchanged otherwise — the clear-on-empty-string branch is
unreachable because the char field rejects a blank value before `update`
runs), refresh `title` from the input when present, and save the row. -/
def serializerUpdate (db : DB) (inst : Issue) (inp : IssueUpdateInput)
    (assignee : Option Nat) : Issue × DB :=
  let inst' : Issue :=
    { inst with
        assigneeId := match assignee with | some uid => some uid | none => inst.assigneeId,
        title := inp.title.getD inst.title }
  (inst', { db with issues := db.issues.map (fun x => if x.id == inst.id then inst' else x) })

/-- The update endpoint (PUT/PATCH): collection permission, object lookup,
object-level checks (contributor of the issue's project, and author since
the method is not safe), serializer validation of `assignee_username` when
supplied, then the save. -/
def update (db : DB) (actor : User) (p i : Nat) (inp : IssueUpdateInput) :
    ApiResult Issue × DB :=
  if ¬ IsProjectContributor.has_permission db actor p then (permissionDenied actor, db)
  else
    match get_object db p i with
    | none => (.notFound "issue", db)
    | some issue =>
      if ¬ (IsProjectContributor.has_object_permission_issue db actor issue &&
            IsAuthor.has_object_permission actor issue.authorId false) then
        (.forbidden, db)
      else
        match inp.assignee_username with
        | some uname =>
          match IssueSerializer.validate_assignee_username db p uname with
          | .error m => (.validationError "assignee_username" m, db)
          | .ok uid =>
            let r := serializerUpdate db issue inp (some uid)
            (.ok r.1, r.2)
        | none =>
          let r := serializerUpdate db issue inp none
          (.ok r.1, r.2)

/-- The destroy endpoint (DELETE): same checks as update, then deletion of
the issue row together with its comments (the cascade of the comment
foreign key). -/
def destroy (db : DB) (actor : User) (p i : Nat) : ApiResult Unit × DB :=
  if ¬ IsProjectContributor.has_permission db actor p then (permissionDenied actor, db)
  else
    match get_object db p i with
    | none => (.notFound "issue", db)
    | some issue =>
      if IsProjectContributor.has_object_permission_issue db actor issue &&
          IsAuthor.has_object_permission actor issue.authorId false then
        (.ok (),
          { db with
              issues := db.issues.filter (fun x => x.id != issue.id),
              comments := db.comments.filter (fun c => c.issueId != issue.id) })
      else (.forbidden, db)

end IssueViewSet

namespace CommentViewSet

/-- softdesk/issues/views.py, `CommentViewSet.get_queryset`: comments
filtered by the issue id taken from the URL.  Nothing here (nor in the
collection permission) checks that this issue belongs to the project id of
the URL. -/
def get_queryset (db : DB) (i : Nat) : List Comment :=
  db.comments.filter (fun c => c.issueId == i)

/-- `self.get_object()`: primary-key lookup inside the filtered queryset. -/
def get_object (db : DB) (i c : Nat) : Option Comment :=
  (get_queryset db i).find? (fun x => x.id == c)

/-- The list endpoint: `IsProjectContributor.has_permission` (which looks
only at the project id of the URL), then the queryset filtered only by the
issue id. -/
def list (db : DB) (actor : User) (p i : Nat) : ApiResult (List Comment) :=
  if IsProjectContributor.has_permission db actor p then .ok (get_queryset db i)
  else permissionDenied actor

/-- The retrieve endpoint: collection permission, object lookup, then the
object-level checks (contributor of the project of the comment's issue;
`IsAuthor` passes on a safe method). -/
def retrieve (db : DB) (actor : User) (p i c : Nat) : ApiResult Comment :=
  if ¬ IsProjectContributor.has_permission db actor p then permissionDenied actor
  else
    match get_object db i c with
    | none => .notFound "comment"
    | some cm =>
      if IsProjectContributor.has_object_permission_comment db actor cm &&
          IsAuthor.has_object_permission actor cm.authorId true then .ok cm
      else .forbidden

/-- The update endpoint (PUT/PATCH) restricted to the modelled field
`description`: collection permission, object lookup, object-level checks
(contributor of the comment's project and author), then the save. -/
def update (db : DB) (actor : User) (p i c : Nat) (desc : String) :
    ApiResult Comment × DB :=
  if ¬ IsProjectContributor.has_permission db actor p then (permissionDenied actor, db)
  else
    match get_object db i c with
    | none => (.notFound "comment", db)
    | some cm =>
      if IsProjectContributor.has_object_permission_comment db actor cm &&
          IsAuthor.has_object_permission actor cm.authorId false then
        let cm' : Comment := { cm with description := desc }
        (.ok cm',
          { db with comments := db.comments.map (fun x => if x.id == cm.id then cm' else x) })
      else (.forbidden, db)

/-- The destroy endpoint (DELETE): same checks, then deletion of the row. -/
def destroy (db : DB) (actor : User) (p i c : Nat) : ApiResult Unit × DB :=
  if ¬ IsProjectContributor.has_permission db actor p then (permissionDenied actor, db)
  else
    match get_object db i c with
    | none => (.notFound "comment", db)
    | some cm =>
      if IsProjectContributor.has_object_permission_comment db actor cm &&
          IsAuthor.has_object_permission actor cm.authorId false then
        (.ok (), { db with comments := db.comments.filter (fun x => x.id != cm.id) })
      else (.forbidden, db)

end CommentViewSet

/-- The five requests that create projects or mutate the membership ledger:
project creation, invite/revoke through the nested `ContributorViewSet`
routes, and invite/revoke through the `contributors` action of
`ProjectViewSet`. -/
inductive MembershipEvent where
  | createProject (actor : User) (title : String)
  | inviteDirect (actor : User) (p : Nat) (uname : String)
  | revokeDirect (actor : User) (p : Nat) (rowPk : Nat)
  | inviteAction (actor : User) (p : Nat) (uname : String)
  | revokeAction (actor : User) (p : Nat) (uname? : Option String)
deriving DecidableEq, Repr

/-- The database state after one membership-mutating request. -/
def applyMembershipEvent (db : DB) (e : MembershipEvent) : DB :=
  match e with
  | .createProject a t => (ProjectViewSet.perform_create db a t).2
  | .inviteDirect a p u => (ContributorViewSet.create db a p u).2
  | .revokeDirect a p k => (ContributorViewSet.destroy db a p k).2
  | .inviteAction a p u => (ProjectViewSet.contributorsPost db a p u).2
  | .revokeAction a p u => (ProjectViewSet.contributorsDelete db a p u).2

/-- The author-membership invariant: every project's author appears in the
membership ledger for that project. -/
def authorIsMember (db : DB) : Prop :=
  ∀ pr ∈ db.projects, isContributor db pr.authorId pr.id = true

/-- Well-formedness of a database state: primary keys already handed out
are below the counters, primary keys are unique per table, and the
author-membership invariant holds.  Project creation establishes all five
conjuncts for the rows it creates, and every membership mutation preserves
them. -/
def DBWF (db : DB) : Prop :=
  (∀ pr ∈ db.projects, pr.id < db.nextProjectId) ∧
  (db.projects.map Project.id).Nodup ∧
  (∀ c ∈ db.contributors, c.id < db.nextContributorId) ∧
  (db.contributors.map Contributor.id).Nodup ∧
  authorIsMember db

lemma isContributor_iff (db : DB) (u p : Nat) :
    isContributor db u p = true ↔ ∃ c ∈ db.contributors, c.userId = u ∧ c.projectId = p := by
  simp [isContributor, List.any_eq_true, Bool.and_eq_true, beq_iff_eq]

lemma findProject_spec {db : DB} {p : Nat} {proj : Project}
    (h : findProject db p = some proj) : proj ∈ db.projects ∧ proj.id = p := by
  refine ⟨List.mem_of_find?_eq_some h, ?_⟩
  have := List.find?_some h
  simpa [beq_iff_eq] using this

lemma projectQueryset_subset {db : DB} {actor : User} {a : String} {pr : Project}
    (h : pr ∈ projectQueryset db actor a) : pr ∈ db.projects := by
  unfold projectQueryset at h
  split at h
  · exact h
  · split at h
    · exact h
    · exact List.mem_of_mem_filter h

lemma contributorsGetObject_spec {db : DB} {actor : User} {p : Nat} {proj : Project}
    (h : ProjectViewSet.contributorsGetObject db actor p = some proj) :
    proj ∈ db.projects ∧ proj.id = p := by
  unfold ProjectViewSet.contributorsGetObject at h
  refine ⟨projectQueryset_subset (List.mem_of_find?_eq_some h), ?_⟩
  have := List.find?_some h
  simpa [beq_iff_eq] using this

lemma project_unique {db : DB} (hnd : (db.projects.map Project.id).Nodup)
    {pr pr' : Project} (h1 : pr ∈ db.projects) (h2 : pr' ∈ db.projects)
    (he : pr.id = pr'.id) : pr = pr' :=
  List.inj_on_of_nodup_map hnd h1 h2 he

lemma nodup_append_fresh {l : List Nat} {a : Nat} (h : l.Nodup) (ha : a ∉ l) :
    (l ++ [a]).Nodup := by
  refine List.nodup_append.mpr ⟨h, List.nodup_singleton a, ?_⟩
  intro x hx hx'
  simp only [List.mem_singleton] at hx'
  subst hx'
  exact ha hx

/-- Removing one membership row (by its primary key) whose user is not the
author of the row's project keeps the author-membership invariant. -/
lemma authorIsMember_after_remove {db : DB} (hwf : DBWF db)
    {proj : Project} (hproj : proj ∈ db.projects)
    {row : Contributor} (hrow : row ∈ db.contributors)
    (hrp : row.projectId = proj.id) (hne : row.userId ≠ proj.authorId) :
    authorIsMember
      { db with contributors := db.contributors.filter (fun c => c.id != row.id) } := by
  obtain ⟨-, hpnd, -, hcnd, hmem⟩ := hwf
  intro pr hpr
  have hold := hmem pr hpr
  rw [isContributor_iff] at hold
  obtain ⟨c, hc, hcu, hcp⟩ := hold
  rw [isContributor_iff]
  refine ⟨c, ?_, hcu, hcp⟩
  simp only [List.mem_filter, bne_iff_ne, ne_eq]
  refine ⟨hc, ?_⟩
  intro hid
  have hceq : c = row := List.inj_on_of_nodup_map hcnd hc hrow hid
  have h1 : row.userId = pr.authorId := hceq ▸ hcu
  have h2 : pr.id = proj.id := by rw [← hcp, hceq, hrp]
  have hpp : pr = proj := project_unique hpnd hpr hproj h2
  exact hne (by rw [h1, hpp])

lemma wf_remove {db : DB} (hwf : DBWF db)
    {proj : Project} (hproj : proj ∈ db.projects)
    {row : Contributor} (hrow : row ∈ db.contributors)
    (hrp : row.projectId = proj.id) (hne : row.userId ≠ proj.authorId) :
    DBWF { db with contributors := db.contributors.filter (fun c => c.id != row.id) } := by
  obtain ⟨hpb, hpnd, hcb, hcnd, hmem⟩ := hwf
  refine ⟨hpb, hpnd, ?_, ?_, ?_⟩
  · intro c hc
    exact hcb c (List.mem_of_mem_filter hc)
  · exact List.Nodup.sublist ((List.filter_sublist _).map Contributor.id) hcnd
  · exact authorIsMember_after_remove ⟨hpb, hpnd, hcb, hcnd, hmem⟩ hproj hrow hrp hne

/-- Appending one membership row with the next free primary key preserves
well-formedness (membership facts are monotone under insertion). -/
lemma wf_append_row (db : DB) (hwf : DBWF db) (u p : Nat) :
    DBWF { db with
            contributors := db.contributors ++
              [{ id := db.nextContributorId, userId := u, projectId := p }],
            nextContributorId := db.nextContributorId + 1 } := by
  obtain ⟨hpb, hpnd, hcb, hcnd, hmem⟩ := hwf
  refine ⟨hpb, hpnd, ?_, ?_, ?_⟩
  · intro c hc
    rcases List.mem_append.mp hc with h | h
    · exact Nat.lt_trans (hcb c h) (Nat.lt_succ_self _)
    · simp only [List.mem_singleton] at h
      subst h
      exact Nat.lt_succ_self _
  · simp only [List.map_append, List.map_cons, List.map_nil]
    exact nodup_append_fresh hcnd (by
      intro hmm
      rcases List.mem_map.mp hmm with ⟨c, hc, hid⟩
      exact absurd (hid ▸ hcb c hc) (lt_irrefl _))
  · intro pr hpr
    have h := hmem pr hpr
    rw [isContributor_iff] at h
    obtain ⟨c, hc, hcu, hcp⟩ := h
    rw [isContributor_iff]
    exact ⟨c, List.mem_append_left _ hc, hcu, hcp⟩

lemma wf_perform_create (db : DB) (actor : User) (title : String) (hwf : DBWF db) :
    DBWF (ProjectViewSet.perform_create db actor title).2 := by
  obtain ⟨hpb, hpnd, hcb, hcnd, hmem⟩ := hwf
  unfold ProjectViewSet.perform_create
  split
  · exact ⟨hpb, hpnd, hcb, hcnd, hmem⟩
  refine ⟨?_, ?_, ?_, ?_, ?_⟩
  · intro pr hpr
    rcases List.mem_append.mp hpr with h | h
    · exact Nat.lt_trans (hpb pr h) (Nat.lt_succ_self _)
    · simp only [List.mem_singleton] at h
      subst h
      exact Nat.lt_succ_self _
  · simp only [List.map_append, List.map_cons, List.map_nil]
    exact nodup_append_fresh hpnd (by
      intro hmm
      rcases List.mem_map.mp hmm with ⟨pr, hpr, hid⟩
      exact absurd (hid ▸ hpb pr hpr) (lt_irrefl _))
  · intro c hc
    rcases List.mem_append.mp hc with h | h
    · exact Nat.lt_trans (hcb c h) (Nat.lt_succ_self _)
    · simp only [List.mem_singleton] at h
      subst h
      exact Nat.lt_succ_self _
  · simp only [List.map_append, List.map_cons, List.map_nil]
    exact nodup_append_fresh hcnd (by
      intro hmm
      rcases List.mem_map.mp hmm with ⟨c, hc, hid⟩
      exact absurd (hid ▸ hcb c hc) (lt_irrefl _))
  · intro pr hpr
    rw [isContributor_iff]
    rcases List.mem_append.mp hpr with h | h
    · have hold := hmem pr h
      rw [isContributor_iff] at hold
      obtain ⟨c, hc, hcu, hcp⟩ := hold
      exact ⟨c, List.mem_append_left _ hc, hcu, hcp⟩
    · simp only [List.mem_singleton] at h
      subst h
      exact ⟨_, List.mem_append_right _ (List.mem_singleton_self _), rfl, rfl⟩

lemma wf_contributor_create (db : DB) (actor : User) (p : Nat) (uname : String)
    (hwf : DBWF db) : DBWF (ContributorViewSet.create db actor p uname).2 := by
  unfold ContributorViewSet.create
  split
  · exact hwf
  split
  · exact hwf
  rename_i proj hproj
  split
  · exact hwf
  split
  · exact hwf
  rename_i u hu
  split
  · exact hwf
  exact wf_append_row db hwf u.id proj.id

lemma wf_contributor_destroy (db : DB) (actor : User) (p rowPk : Nat)
    (hwf : DBWF db) : DBWF (ContributorViewSet.destroy db actor p rowPk).2 := by
  unfold ContributorViewSet.destroy
  split
  · exact hwf
  split
  · exact hwf
  rename_i proj hproj
  split
  · exact hwf
  split
  · exact hwf
  rename_i row hrow
  split
  · exact hwf
  rename_i hne
  have hrowmem : row ∈ db.contributors.filter (fun c => c.projectId == p) :=
    List.mem_of_find?_eq_some hrow
  have hrow1 : row ∈ db.contributors := List.mem_of_mem_filter hrowmem
  have hrow2 : row.projectId = p := by
    have := List.of_mem_filter hrowmem
    simpa [beq_iff_eq] using this
  obtain ⟨hpmem, hpid⟩ := findProject_spec hproj
  refine wf_remove hwf hpmem hrow1 (by rw [hrow2, hpid]) ?_
  intro hcontra
  exact hne (by simpa [beq_iff_eq] using hcontra)

lemma wf_contributors_post (db : DB) (actor : User) (p : Nat) (uname : String)
    (hwf : DBWF db) : DBWF (ProjectViewSet.contributorsPost db actor p uname).2 := by
  unfold ProjectViewSet.contributorsPost
  split
  · exact hwf
  split
  · exact hwf
  · exact hwf

lemma wf_contributors_delete (db : DB) (actor : User) (p : Nat) (uname? : Option String)
    (hwf : DBWF db) : DBWF (ProjectViewSet.contributorsDelete db actor p uname?).2 := by
  unfold ProjectViewSet.contributorsDelete
  split
  · exact hwf
  split
  · exact hwf
  rename_i proj hproj
  split
  · exact hwf
  split
  · exact hwf
  rename_i uname
  split
  · exact hwf
  rename_i u hu
  split
  · exact hwf
  rename_i hne
  split
  · rename_i row hrow
    have hrow1 : row ∈ db.contributors := List.mem_of_find?_eq_some hrow
    have hprops := List.find?_some hrow
    have hrow2 : row.projectId = proj.id := by
      simp only [Bool.and_eq_true, beq_iff_eq] at hprops
      exact hprops.1
    obtain ⟨hpmem, hpid⟩ := contributorsGetObject_spec hproj
    refine wf_remove hwf hpmem hrow1 hrow2 ?_
    have hrowu : row.userId = u.id := by
      simp only [Bool.and_eq_true, beq_iff_eq] at hprops
      exact hprops.2
    rw [hrowu]
    intro hcontra
    exact hne (by simpa [beq_iff_eq] using hcontra)
  · exact hwf

/-! Test fixtures: a small concrete state used by the witnesses and
counterexamples below.  alice authored project 1, bob authored project 2
and also contributes to project 1, stan is staff but contributes nowhere,
carol contributes nowhere.  Issue 10 belongs to project 2, issue 11 to
project 1 (both authored by bob); comment 100 sits on issue 10, comment
101 on issue 11. -/

def userAlice : User :=
  { id := 1, username := "alice", isAuthenticated := true,
    isStaff := false, isSuperuser := false, age := some 30 }

def userBob : User :=
  { id := 2, username := "bob", isAuthenticated := true,
    isStaff := false, isSuperuser := false, age := some 25 }

def userStan : User :=
  { id := 3, username := "stan", isAuthenticated := true,
    isStaff := true, isSuperuser := false, age := some 40 }

def userCarol : User :=
  { id := 4, username := "carol", isAuthenticated := true,
    isStaff := false, isSuperuser := false, age := some 20 }

def projectOne : Project := { id := 1, title := "p1", authorId := 1 }

def projectTwo : Project := { id := 2, title := "p2", authorId := 2 }

def issueTen : Issue :=
  { id := 10, title := "i10", projectId := 2, authorId := 2, assigneeId := none }

def issueEleven : Issue :=
  { id := 11, title := "i11", projectId := 1, authorId := 2, assigneeId := none }

def commentHundred : Comment :=
  { id := 100, description := "c100", issueId := 10, authorId := 2 }

def commentHundredOne : Comment :=
  { id := 101, description := "c101", issueId := 11, authorId := 2 }

def db1 : DB :=
  { users := [userAlice, userBob, userStan, userCarol],
    projects := [projectOne, projectTwo],
    contributors :=
      [{ id := 1, userId := 1, projectId := 1 },
       { id := 2, userId := 2, projectId := 2 },
       { id := 3, userId := 2, projectId := 1 }],
    issues := [issueTen, issueEleven],
    comments := [commentHundred, commentHundredOne],
    nextUserId := 5, nextProjectId := 3, nextContributorId := 4, nextIssueId := 12 }

/-- Claim C1: for every project, after project creation and after every
membership mutation (invite or revoke, via either contributor endpoint),
the project's author is present in the project's membership set; project
creation adds the author as a contributor, and every revoke path refuses
to remove the author.  Formally: every membership-mutating request maps a
well-formed state to a well-formed state, and well-formedness contains the
author-membership invariant. -/
theorem c1_author_membership_invariant (db : DB) (e : MembershipEvent)
    (h : DBWF db) :
    authorIsMember (applyMembershipEvent db e) ∧ DBWF (applyMembershipEvent db e) := by
  have h' : DBWF (applyMembershipEvent db e) := by
    cases e with
    | createProject a t => exact wf_perform_create db a t h
    | inviteDirect a p u => exact wf_contributor_create db a p u h
    | revokeDirect a p k => exact wf_contributor_destroy db a p k h
    | inviteAction a p u => exact wf_contributors_post db a p u h
    | revokeAction a p u => exact wf_contributors_delete db a p u h
  exact ⟨h'.2.2.2.2, h'⟩

/-- Witness for C1: the fixture state is well-formed, and after the author
alice revokes bob's membership row of project 1 (a successful revoke) the
author-membership invariant still holds. -/
theorem c1_author_membership_invariant_witness :
    DBWF db1 ∧ authorIsMember (applyMembershipEvent db1 (.revokeDirect userAlice 1 3)) :=
  ⟨by unfold DBWF authorIsMember; decide,
   (c1_author_membership_invariant db1 (.revokeDirect userAlice 1 3)
     (by unfold DBWF authorIsMember; decide)).1⟩

/-- Claim C2 as stated is false on the code: stan has the staff flag set
and project 1 exists, yet retrieving project 1 as stan is denied with 403
(the object-level permission of softdesk/projects/permissions.py allows a
safe-method read only to contributors and has no staff/superuser branch). -/
theorem c2_staff_retrieve_counterexample :
    userStan.isStaff = true ∧ (findProject db1 1).isSome = true ∧
    isContributor db1 userStan.id 1 = false ∧
    ProjectViewSet.retrieve db1 userStan 1 = .forbidden := by decide

/-- Claim C2 amended: the staff/superuser override applies to the queryset,
not to the object-level check: a staff or superuser actor sees every
project in the list queryset, and a retrieve of any existing project
resolves (it never answers 404) and returns the project iff the staff
actor is one of its contributors; a non-member staff actor receives 403. -/
theorem c2_staff_visibility_amended (db : DB) (actor : User) (pk : Nat)
    (proj : Project)
    (hauth : actor.isAuthenticated = true)
    (hstaff : actor.isStaff = true ∨ actor.isSuperuser = true)
    (hfind : findProject db pk = some proj) :
    ProjectViewSet.list db actor = .ok db.projects ∧
    ProjectViewSet.retrieve db actor pk =
      (if isContributor db actor.id proj.id then .ok proj else .forbidden) ∧
    ProjectViewSet.retrieve db actor pk ≠ .notFound "project" := by
  have hq : ∀ a : String, projectQueryset db actor a = db.projects := by
    intro a
    rcases hstaff with h | h <;> simp [projectQueryset, h]
  have hret : ProjectViewSet.retrieve db actor pk =
      (if isContributor db actor.id proj.id then .ok proj else .forbidden) := by
    unfold ProjectViewSet.retrieve
    rw [hq, hauth]
    simp only [not_true_eq_false, if_false]
    rw [show db.projects.find? (fun pr => pr.id == pk) = some proj from hfind]
  refine ⟨?_, hret, ?_⟩
  · unfold ProjectViewSet.list
    rw [hq, hauth]
    simp
  · rw [hret]
    by_cases hc : isContributor db actor.id proj.id = true
    · simp [hc]
    · simp [hc]

/-- Witness for the amended C2 at the fixture state: staff stan gets the
full project list, and retrieve of project 1 resolves to the membership
test (which denies stan, a non-member, with 403 rather than 404). -/
theorem c2_staff_visibility_amended_witness :
    ProjectViewSet.list db1 userStan = .ok db1.projects ∧
    ProjectViewSet.retrieve db1 userStan 1 =
      (if isContributor db1 userStan.id projectOne.id then .ok projectOne else .forbidden) ∧
    ProjectViewSet.retrieve db1 userStan 1 ≠ .notFound "project" :=
  c2_staff_visibility_amended db1 userStan 1 projectOne rfl (Or.inl rfl) (by decide)

/-- Claim C3: an issue that exists but belongs to a different project than
the one named in the path is outside the project-filtered queryset, so the
detail endpoints (retrieve, update, destroy) answer 404 at the issue level
once the collection permission has passed, and in no case do they return
the issue or change the database. -/
theorem c3_cross_project_issue_notfound (db : DB) (actor : User) (p i : Nat)
    (issue : Issue) (hmem : issue ∈ db.issues) (hid : issue.id = i)
    (hq : issue.projectId ≠ p) (hnd : (db.issues.map Issue.id).Nodup) :
    IssueViewSet.get_object db p i = none ∧
    (IsProjectContributor.has_permission db actor p = true →
      IssueViewSet.retrieve db actor p i = .notFound "issue" ∧
      IssueViewSet.destroy db actor p i = (.notFound "issue", db) ∧
      ∀ inp : IssueUpdateInput,
        IssueViewSet.update db actor p i inp = (.notFound "issue", db)) ∧
    IssueViewSet.retrieve db actor p i ≠ .ok issue ∧
    (IssueViewSet.destroy db actor p i).2 = db ∧
    ∀ inp : IssueUpdateInput, (IssueViewSet.update db actor p i inp).2 = db := by
  have hgo : IssueViewSet.get_object db p i = none := by
    cases hfind : IssueViewSet.get_object db p i with
    | none => rfl
    | some x =>
      exfalso
      have hx1 : x ∈ IssueViewSet.get_queryset db p := List.mem_of_find?_eq_some hfind
      have hx2 : x.id = i := by simpa [beq_iff_eq] using List.find?_some hfind
      simp only [IssueViewSet.get_queryset] at hx1
      have hx3 : x ∈ db.issues := List.mem_of_mem_filter hx1
      have hx4 : x.projectId = p := by
        simpa [beq_iff_eq] using List.of_mem_filter hx1
      have hxeq : x = issue :=
        List.inj_on_of_nodup_map hnd hx3 hmem (by rw [hx2, hid])
      exact hq (hxeq ▸ hx4)
  refine ⟨hgo, ?_, ?_, ?_, ?_⟩
  · intro hperm
    refine ⟨?_, ?_, ?_⟩
    · simp [IssueViewSet.retrieve, hperm, hgo]
    · simp [IssueViewSet.destroy, hperm, hgo]
    · intro inp
      simp [IssueViewSet.update, hperm, hgo]
  · by_cases hperm : IsProjectContributor.has_permission db actor p = true
    · simp [IssueViewSet.retrieve, hperm, hgo]
    · simp only [IssueViewSet.retrieve, hperm]
      unfold permissionDenied
      by_cases hauth : actor.isAuthenticated = true <;> simp [hauth, hperm]
  · by_cases hperm : IsProjectContributor.has_permission db actor p = true
    · simp [IssueViewSet.destroy, hperm, hgo]
    · simp only [IssueViewSet.destroy, hperm]
      simp
  · intro inp
    by_cases hperm : IsProjectContributor.has_permission db actor p = true
    · simp [IssueViewSet.update, hperm, hgo]
    · simp only [IssueViewSet.update, hperm]
      simp

/-- Witness for C3: issue 10 exists but belongs to project 2; resolving it
under project 1 as bob (a contributor of project 1) yields a 404 at the
issue level for retrieve and destroy, and the database is untouched. -/
theorem c3_cross_project_issue_notfound_witness :
    IssueViewSet.get_object db1 1 10 = none ∧
    IssueViewSet.retrieve db1 userBob 1 10 = .notFound "issue" ∧
    IssueViewSet.destroy db1 userBob 1 10 = (.notFound "issue", db1) :=
  have h := c3_cross_project_issue_notfound db1 userBob 1 10 issueTen
    (by decide) rfl (by decide) (by decide)
  ⟨h.1, (h.2.1 (by decide)).1, (h.2.1 (by decide)).2.1⟩

/-- Claim C4 names a real bug in the code: `CommentViewSet.get_queryset`
filters comments only by the issue id of the URL and neither it nor
`IsProjectContributor.has_permission` (which looks only at the project id
of the URL) verifies that the issue belongs to that project.  Concretely:
issue 10 belongs to project 2, alice is a contributor of project 1 only,
yet listing /projects/1/issues/10/comments as alice succeeds and serves
issue 10's comments instead of failing at the issue level. -/
theorem c4_comment_scoping_bug :
    issueTen ∈ db1.issues ∧ issueTen.projectId = 2 ∧ (2 : Nat) ≠ 1 ∧
    isContributor db1 userAlice.id 2 = false ∧
    CommentViewSet.list db1 userAlice 1 10 = .ok [commentHundred] := by decide

/-- Claim C5 as stated is false on the code: bob is already a contributor
of project 1, and the invite of bob by the author alice through the nested
contributor endpoint fails with HTTP 400 (Bad Request), not with 409
(Conflict); the ledger is unchanged. -/
theorem c5_duplicate_invite_counterexample :
    isContributor db1 userBob.id 1 = true ∧
    (ContributorViewSet.create db1 userAlice 1 "bob").1 = .alreadyContributor ∧
    ((ContributorViewSet.create db1 userAlice 1 "bob").1).status = 400 ∧
    ((ContributorViewSet.create db1 userAlice 1 "bob").1).status ≠ 409 ∧
    (ContributorViewSet.create db1 userAlice 1 "bob").2 = db1 := by decide

/-- Claim C5 amended: a duplicate invite by the project author through the
nested contributor endpoint fails with HTTP 400 (Bad Request, the
"already a contributor" response), leaving the membership ledger
unchanged; 409 is never produced.  (The POST branch of the `contributors`
action rejects every request with 403 before its duplicate check, also
leaving the ledger unchanged.) -/
theorem c5_duplicate_invite_amended (db : DB) (actor : User) (p : Nat)
    (uname : String) (proj : Project) (u : User)
    (hauth : actor.isAuthenticated = true)
    (hfind : findProject db p = some proj)
    (hactor : actor.id = proj.authorId)
    (hu : findUserByUsername db uname = some u)
    (hdup : isContributor db u.id proj.id = true) :
    ContributorViewSet.create db actor p uname = (.alreadyContributor, db) ∧
    MembershipResult.status .alreadyContributor = 400 := by
  refine ⟨?_, rfl⟩
  unfold ContributorViewSet.create
  rw [hauth]
  simp only [not_true_eq_false, if_false]
  rw [hfind, hactor]
  simp [hu, hdup]

/-- Witness for the amended C5 at the fixture state. -/
theorem c5_duplicate_invite_amended_witness :
    ContributorViewSet.create db1 userAlice 1 "bob" = (.alreadyContributor, db1) ∧
    MembershipResult.status .alreadyContributor = 400 :=
  c5_duplicate_invite_amended db1 userAlice 1 "bob" projectOne userBob
    rfl (by decide) rfl (by decide) (by decide)

/-- Claim C6 as stated is false on the code: bob (a contributor but not
the author of project 1) requests the revocation of the author alice's
membership row and is rejected with 403 (Forbidden) by the author
precondition, not with the distinct "author cannot be removed" error. -/
theorem c6_revoke_author_counterexample :
    (ContributorViewSet.destroy db1 userBob 1 1).1 = .forbidden ∧
    (ContributorViewSet.destroy db1 userBob 1 1).1 ≠ .authorCannotBeRemoved := by decide

/-- Claim C6 amended: on both revoke endpoints a request that targets the
project author's own membership never removes it; when the requester is
the author it fails with the distinct "author cannot be removed" error
(HTTP 400), and any other requester is rejected earlier with 403 by the
author-only precondition. -/
theorem c6_revoke_author_amended (db : DB) (actor : User) (p rowPk : Nat)
    (uname : String) (proj : Project) (row : Contributor) (u : User)
    (hauth : actor.isAuthenticated = true)
    (hfind : findProject db p = some proj)
    (hrow : (db.contributors.filter (fun c => c.projectId == p)).find?
      (fun c => c.id == rowPk) = some row)
    (hrowa : row.userId = proj.authorId)
    (hobj : ProjectViewSet.contributorsGetObject db actor p = some proj)
    (hu : findUserByUsername db uname = some u)
    (hua : u.id = proj.authorId) :
    ContributorViewSet.destroy db actor p rowPk =
      ((if actor.id = proj.authorId then .authorCannotBeRemoved else .forbidden), db) ∧
    ProjectViewSet.contributorsDelete db actor p (some uname) =
      ((if actor.id = proj.authorId then .authorCannotBeRemoved else .forbidden), db) := by
  constructor
  · unfold ContributorViewSet.destroy
    rw [hauth]
    simp only [not_true_eq_false, if_false]
    rw [hfind]
    by_cases ha : actor.id = proj.authorId
    · simp [ha, hrow, hrowa]
    · rw [if_neg ha]
      have hbne : (actor.id != proj.authorId) = true := bne_iff_ne.mpr ha
      simp [hbne]
  · unfold ProjectViewSet.contributorsDelete
    rw [hauth]
    simp only [not_true_eq_false, if_false]
    rw [hobj]
    by_cases ha : actor.id = proj.authorId
    · simp [ha, hu, hua]
    · rw [if_neg ha]
      have hbne : (proj.authorId != actor.id) = true :=
        bne_iff_ne.mpr (fun h => ha h.symm)
      simp [hbne]

/-- Witness for the amended C6 at the fixture state: the author alice
requesting her own revocation (by row pk on the nested endpoint, by
username on the project action) receives the distinct error on both
endpoints and the ledger is unchanged. -/
theorem c6_revoke_author_amended_witness :
    ContributorViewSet.destroy db1 userAlice 1 1 =
      ((if userAlice.id = projectOne.authorId
        then .authorCannotBeRemoved else .forbidden), db1) ∧
    ProjectViewSet.contributorsDelete db1 userAlice 1 (some "alice") =
      ((if userAlice.id = projectOne.authorId
        then .authorCannotBeRemoved else .forbidden), db1) :=
  c6_revoke_author_amended db1 userAlice 1 1 "alice" projectOne
    { id := 1, userId := 1, projectId := 1 } userAlice
    rfl (by decide) (by decide) rfl (by decide) (by decide) rfl

/-- Claim C7 as stated is false on the code: project 999 does not exist,
alice is authenticated, and listing issues under /projects/999/issues is
answered with 403 (Forbidden, because
`IsProjectContributor.has_permission` returns False when the project
lookup fails), not with a 404 at the project level. -/
theorem c7_nonexistent_project_counterexample :
    userAlice.isAuthenticated = true ∧ findProject db1 999 = none ∧
    IssueViewSet.list db1 userAlice 999 = .forbidden ∧
    IssueViewSet.list db1 userAlice 999 ≠ .notFound "project" := by decide

/-- Claim C7 amended: for every nested request under a project id that
denotes no existing project, an authenticated actor receives Forbidden
(403) — the collection permission fails before any resolution, so NotFound
is never produced at this tier. -/
theorem c7_nonexistent_project_amended (db : DB) (actor : User) (p : Nat)
    (hauth : actor.isAuthenticated = true)
    (hnone : findProject db p = none) :
    IssueViewSet.list db actor p = .forbidden ∧
    (∀ inp : IssueCreateInput, IssueViewSet.create db actor p inp = (.forbidden, db)) ∧
    (∀ i : Nat, CommentViewSet.list db actor p i = .forbidden) := by
  have hperm : IsProjectContributor.has_permission db actor p = false := by
    unfold IsProjectContributor.has_permission
    rw [hnone]
    simp
  have hdeny : (permissionDenied actor : ApiResult (List Issue)) = .forbidden := by
    unfold permissionDenied
    rw [hauth]
    simp
  refine ⟨?_, ?_, ?_⟩
  · unfold IssueViewSet.list
    rw [hperm]
    simpa using hdeny
  · intro inp
    unfold IssueViewSet.create
    rw [hperm]
    unfold permissionDenied
    rw [hauth]
    simp
  · intro i
    unfold CommentViewSet.list
    rw [hperm]
    unfold permissionDenied
    rw [hauth]
    simp

/-- Witness for the amended C7 at the fixture state. -/
theorem c7_nonexistent_project_amended_witness :
    IssueViewSet.list db1 userAlice 999 = .forbidden ∧
    IssueViewSet.create db1 userAlice 999 { title := "t", assignee_username := none } =
      (.forbidden, db1) ∧
    CommentViewSet.list db1 userAlice 999 10 = .forbidden :=
  have h := c7_nonexistent_project_amended db1 userAlice 999 rfl (by decide)
  ⟨h.1, h.2.1 { title := "t", assignee_username := none }, h.2.2 10⟩

/-- Claim C8: for an issue resolved under its own project's path and a
comment resolved under its issue, an update or delete succeeds iff the
actor is authenticated, a current contributor of the project, and the
resource's author: membership is necessary but not sufficient, and a
member who is not the author is denied.  (For issue updates the input is
taken without an assignee so that the authorization outcome is isolated
from assignee validation.) -/
theorem c8_write_requires_author_and_membership
    (db : DB) (actor : User) (p i c : Nat) (issue : Issue) (cm : Comment)
    (hio : IssueViewSet.get_object db p i = some issue)
    (hip : issue.projectId = p)
    (hproj : (findProject db p).isSome = true)
    (hco : CommentViewSet.get_object db i c = some cm)
    (hci : findIssue db cm.issueId = some issue) :
    ((IssueViewSet.destroy db actor p i).1 = .ok () ↔
      (actor.isAuthenticated = true ∧ isContributor db actor.id p = true ∧
       issue.authorId = actor.id)) ∧
    (∀ inp : IssueUpdateInput, inp.assignee_username = none →
      ((∃ x, (IssueViewSet.update db actor p i inp).1 = .ok x) ↔
        (actor.isAuthenticated = true ∧ isContributor db actor.id p = true ∧
         issue.authorId = actor.id))) ∧
    ((CommentViewSet.destroy db actor p i c).1 = .ok () ↔
      (actor.isAuthenticated = true ∧ isContributor db actor.id p = true ∧
       cm.authorId = actor.id)) ∧
    (∀ d : String,
      ((∃ x, (CommentViewSet.update db actor p i c d).1 = .ok x) ↔
        (actor.isAuthenticated = true ∧ isContributor db actor.id p = true ∧
         cm.authorId = actor.id))) := by
  by_cases hauth : actor.isAuthenticated = true
  · by_cases hmem : isContributor db actor.id p = true
    · have hperm : IsProjectContributor.has_permission db actor p = true := by
        unfold IsProjectContributor.has_permission
        rw [hauth, hproj, hmem]
        rfl
      have hobji : IsProjectContributor.has_object_permission_issue db actor issue = true := by
        unfold IsProjectContributor.has_object_permission_issue
        rw [hauth, hip, hmem]
        rfl
      have hobjc : IsProjectContributor.has_object_permission_comment db actor cm = true := by
        unfold IsProjectContributor.has_object_permission_comment
        rw [hauth, hci]
        simp only [hip, hmem, Bool.true_and]
      refine ⟨?_, ?_, ?_, ?_⟩
      · by_cases hA : issue.authorId = actor.id
        · simp [IssueViewSet.destroy, hperm, hio, hobji,
                IsAuthor.has_object_permission, hA, hauth, hmem]
        · have hb : (issue.authorId == actor.id) = false := by
            simpa using hA
          simp [IssueViewSet.destroy, hperm, hio, hobji,
                IsAuthor.has_object_permission, hb, hA, hauth, hmem]
      · intro inp hinp
        by_cases hA : issue.authorId = actor.id
        · simp [IssueViewSet.update, hperm, hio, hobji,
                IsAuthor.has_object_permission, hA, hauth, hmem, hinp]
        · have hb : (issue.authorId == actor.id) = false := by
            simpa using hA
          simp [IssueViewSet.update, hperm, hio, hobji,
                IsAuthor.has_object_permission, hb, hA, hauth, hmem, hinp]
      · by_cases hA : cm.authorId = actor.id
        · simp [CommentViewSet.destroy, hperm, hco, hobjc,
                IsAuthor.has_object_permission, hA, hauth, hmem]
        · have hb : (cm.authorId == actor.id) = false := by
            simpa using hA
          simp [CommentViewSet.destroy, hperm, hco, hobjc,
                IsAuthor.has_object_permission, hb, hA, hauth, hmem]
      · intro d
        by_cases hA : cm.authorId = actor.id
        · simp [CommentViewSet.update, hperm, hco, hobjc,
                IsAuthor.has_object_permission, hA, hauth, hmem]
        · have hb : (cm.authorId == actor.id) = false := by
            simpa using hA
          simp [CommentViewSet.update, hperm, hco, hobjc,
                IsAuthor.has_object_permission, hb, hA, hauth, hmem]
    · have hperm : IsProjectContributor.has_permission db actor p = false := by
        unfold IsProjectContributor.has_permission
        rw [hauth, hproj]
        simpa using hmem
      refine ⟨?_, ?_, ?_, ?_⟩
      · simp [IssueViewSet.destroy, hperm, permissionDenied, hauth, hmem]
      · intro inp hinp
        simp [IssueViewSet.update, hperm, permissionDenied, hauth, hmem]
      · simp [CommentViewSet.destroy, hperm, permissionDenied, hauth, hmem]
      · intro d
        simp [CommentViewSet.update, hperm, permissionDenied, hauth, hmem]
  · have hfalse : actor.isAuthenticated = false := by
      simpa using hauth
    have hperm : IsProjectContributor.has_permission db actor p = false := by
      unfold IsProjectContributor.has_permission
      rw [hfalse]
      rfl
    refine ⟨?_, ?_, ?_, ?_⟩
    · simp [IssueViewSet.destroy, hperm, permissionDenied, hfalse, hauth]
    · intro inp hinp
      simp [IssueViewSet.update, hperm, permissionDenied, hfalse, hauth]
    · simp [CommentViewSet.destroy, hperm, permissionDenied, hfalse, hauth]
    · intro d
      simp [CommentViewSet.update, hperm, permissionDenied, hfalse, hauth]

/-- Witness for C8: bob is a contributor of project 1 and the author of
issue 11 and comment 101, so his deletes succeed; alice is a contributor
of project 1 but not the author, so her deletes of both resources are
refused. -/
theorem c8_write_requires_author_and_membership_witness :
    (IssueViewSet.destroy db1 userBob 1 11).1 = .ok () ∧
    (CommentViewSet.destroy db1 userBob 1 11 101).1 = .ok () ∧
    ¬ (IssueViewSet.destroy db1 userAlice 1 11).1 = .ok () ∧
    ¬ (CommentViewSet.destroy db1 userAlice 1 11 101).1 = .ok () :=
  have hb := c8_write_requires_author_and_membership db1 userBob 1 11 101
    issueEleven commentHundredOne (by decide) rfl (by decide) (by decide) (by decide)
  have ha := c8_write_requires_author_and_membership db1 userAlice 1 11 101
    issueEleven commentHundredOne (by decide) rfl (by decide) (by decide) (by decide)
  ⟨hb.1.mpr ⟨rfl, by decide, rfl⟩,
   hb.2.2.1.mpr ⟨rfl, by decide, rfl⟩,
   fun hcon => absurd (ha.1.mp hcon).2.2 (by decide),
   fun hcon => absurd (ha.2.2.1.mp hcon).2.2 (by decide)⟩

/-- Claim C9: when an issue create or update supplies a non-null assignee
username, the operation (run by a fully authorized actor: authenticated,
project member, issue author) succeeds only when that user is a current
contributor of the path's project — the project of the updated or created
issue; a non-member assignee is rejected with a validation error naming
the assignee field and the database is unchanged. -/
theorem c9_assignee_membership
    (db : DB) (actor : User) (p i : Nat) (uname : String) (u : User)
    (issue : Issue) (proj : Project)
    (cinp : IssueCreateInput) (uinp : IssueUpdateInput)
    (hcu : cinp.assignee_username = some uname)
    (huu : uinp.assignee_username = some uname)
    (hu : findUserByUsername db uname = some u)
    (hproj : findProject db p = some proj)
    (hauth : actor.isAuthenticated = true)
    (hmem : isContributor db actor.id p = true)
    (hio : IssueViewSet.get_object db p i = some issue)
    (hip : issue.projectId = p)
    (hA : issue.authorId = actor.id) :
    (isContributor db u.id p = false →
      IssueViewSet.update db actor p i uinp =
        (.validationError "assignee_username"
          "Assigned user must be a contributor to this project.", db) ∧
      IssueViewSet.create db actor p cinp =
        (.validationError "assignee_username"
          "Assigned user must be a contributor to this project.", db)) ∧
    (isContributor db u.id p = true →
      (∃ iss, (IssueViewSet.update db actor p i uinp).1 = .ok iss ∧
        iss.assigneeId = some u.id) ∧
      (∃ iss, (IssueViewSet.create db actor p cinp).1 = .ok iss ∧
        iss.assigneeId = some u.id ∧ iss.projectId = p)) := by
  have hpid : proj.id = p := (findProject_spec hproj).2
  have hperm : IsProjectContributor.has_permission db actor p = true := by
    unfold IsProjectContributor.has_permission
    rw [hauth, hproj, hmem]
    rfl
  have hobji : IsProjectContributor.has_object_permission_issue db actor issue = true := by
    unfold IsProjectContributor.has_object_permission_issue
    rw [hauth, hip, hmem]
    rfl
  have hA2 : (issue.authorId == actor.id) = true := by simp [hA]
  constructor
  · intro hnot
    have hval : IssueSerializer.validate_assignee_username db p uname =
        .error "Assigned user must be a contributor to this project." := by
      unfold IssueSerializer.validate_assignee_username
      rw [hu, hproj]
      simp [hpid, hnot]
    constructor
    · simp [IssueViewSet.update, hperm, hio, hobji,
            IsAuthor.has_object_permission, hA2, huu, hval]
    · simp [IssueViewSet.create, hperm, hcu, hval]
  · intro hyes
    have hval : IssueSerializer.validate_assignee_username db p uname = .ok u.id := by
      unfold IssueSerializer.validate_assignee_username
      rw [hu, hproj]
      simp [hpid, hyes]
    constructor
    · refine ⟨(IssueViewSet.serializerUpdate db issue uinp (some u.id)).1, ?_, ?_⟩
      · simp [IssueViewSet.update, hperm, hio, hobji,
              IsAuthor.has_object_permission, hA2, huu, hval]
      · simp [IssueViewSet.serializerUpdate]
    · refine ⟨{ id := db.nextIssueId, title := cinp.title, projectId := proj.id,
                authorId := actor.id, assigneeId := some u.id }, ?_, rfl, hpid⟩
      have hmem2 : isContributor db actor.id proj.id = true := by rw [hpid]; exact hmem
      simp [IssueViewSet.create, hperm, hcu, hval, hproj, hmem2]

/-- Witness for C9: bob (author of issue 11 in project 1, member of
project 1) tries to assign carol, who exists but is not a member of
project 1: both update and create are rejected with the validation error
on the assignee field and the state is unchanged. -/
theorem c9_assignee_membership_witness :
    IssueViewSet.update db1 userBob 1 11
        { title := none, assignee_username := some "carol" } =
      (.validationError "assignee_username"
        "Assigned user must be a contributor to this project.", db1) ∧
    IssueViewSet.create db1 userBob 1
        { title := "t", assignee_username := some "carol" } =
      (.validationError "assignee_username"
        "Assigned user must be a contributor to this project.", db1) :=
  (c9_assignee_membership db1 userBob 1 11 "carol" userCarol issueEleven projectOne
      { title := "t", assignee_username := some "carol" }
      { title := none, assignee_username := some "carol" }
      rfl rfl (by decide) (by decide) rfl (by decide) (by decide) rfl rfl).1 (by decide)


/-- Claim C10: the minimum-age rule runs only when an age value is
supplied — omitting the field stores a null age and succeeds, an explicit
null is rejected with a validation error on the age field, and a supplied
age below 15 is rejected on the age field; in every rejection the state is
unchanged. -/
theorem c10_age_only_checked_when_supplied (db : DB) (uname : String)
    (n : Int) (hn : n < 15) :
    (∃ u, (UserCreateAPIView.create db uname .omitted).1 = .ok u ∧ u.age = none ∧
      (UserCreateAPIView.create db uname .omitted).2.users = db.users ++ [u]) ∧
    UserCreateAPIView.create db uname .null =
      (.validationError "age" "Age is required.", db) ∧
    UserCreateAPIView.create db uname (.value n) =
      (.validationError "age" "You must be at least 15 years old to register.", db) := by
  refine ⟨?_, rfl, ?_⟩
  · exact ⟨_, rfl, rfl, rfl⟩
  · simp [UserCreateAPIView.create, runAgeField, UserSerializer.validate_age, hn]

/-- Witness for C10 at the fixture state with a nine-year-old signup. -/
theorem c10_age_only_checked_when_supplied_witness :
    (∃ u, (UserCreateAPIView.create db1 "dave" .omitted).1 = .ok u ∧ u.age = none ∧
      (UserCreateAPIView.create db1 "dave" .omitted).2.users = db1.users ++ [u]) ∧
    UserCreateAPIView.create db1 "dave" .null =
      (.validationError "age" "Age is required.", db1) ∧
    UserCreateAPIView.create db1 "dave" (.value 9) =
      (.validationError "age" "You must be at least 15 years old to register.", db1) :=
  c10_age_only_checked_when_supplied db1 "dave" 9 (by decide)
